import Mathlib

/-!
Verification of the AmortaPy amortization core against its specification.

The development shallowly embeds the Python sources
`AmortaPy/core/_amortization_functions.py`, `AmortaPy/core/_amortization.py`
and `AmortaPy/core/_constants.py` into Lean.  Numbers are modelled as exact
rationals (the Python code computes with binary floats; all properties
checked here are about the algebraic structure of the algorithm, which is
identical).  Division by zero follows the Lean convention `x / 0 = 0`; the
Python code instead raises `ZeroDivisionError` on the degenerate inputs
(`rate = 0` with the default payment), so the model is total on a superset
of the inputs on which the source runs — every universally quantified
theorem below therefore also covers all runs of the source.  Python's
`x ** n` on floats is a real power; it is only ever applied to integral
period counts, and is modelled exactly on those by an integer power.
-/

/-- A row of the amortization schedule: the entries appended to the
`data` dict in `generate_amortization_table` (lines 135-140 of
`_amortization_functions.py`).  `closing_balance` is the recorded,
rounded value of line 140. -/
structure Row where
  period : ℕ
  opening_balance : ℚ
  interest : ℚ
  principal : ℚ
  period_payment : ℚ
  closing_balance : ℚ
deriving DecidableEq, Inhabited

/-- Errors raised by the core, with the names the specification gives them.
`inconsistentInterestOnlyConfig` is the `ArgumentError` of line 95 of
`_amortization_functions.py`; `invalidFrequency` is the `ValueError`
raised by the frequency resolver in `_amortization.py`. -/
inductive AmortError where
  | inconsistentInterestOnlyConfig : AmortError
  | invalidFrequency : AmortError
deriving DecidableEq

/-- A repayment-frequency specifier: Python accepts `str` (a name) or
`int | float` (a period count). -/
inductive FreqSpec where
  | name : String → FreqSpec
  | count : ℚ → FreqSpec
deriving DecidableEq

/-- Python's `int(x)` applied to a numeric value: truncation toward zero. -/
def pyInt (q : ℚ) : ℤ :=
  if 0 ≤ q then ⌊q⌋ else -⌊-q⌋

/-- Round a rational to the nearest integer, ties to even: the rounding
mode of Python's builtin `round`. -/
def roundHalfEven (q : ℚ) : ℤ :=
  if q - ⌊q⌋ < 1/2 then ⌊q⌋
  else if 1/2 < q - ⌊q⌋ then ⌊q⌋ + 1
  else if ⌊q⌋ % 2 = 0 then ⌊q⌋ else ⌊q⌋ + 1

/-- Python's `round(x, 6)`: round to 6 decimal places (line 140 of
`_amortization_functions.py`). -/
def round6 (q : ℚ) : ℚ :=
  (roundHalfEven (q * 1000000) : ℚ) / 1000000

/-- ASCII lowercase of one character, as Python's `str.lower` does on the
ASCII names used by the package. -/
def pyLowerChar (c : Char) : Char :=
  if 'A' ≤ c ∧ c ≤ 'Z' then Char.ofNat (c.toNat + 32) else c

/-- Python's `str.lower()` on ASCII strings. -/
def pyLower (s : String) : String :=
  ⟨s.data.map pyLowerChar⟩

/-- The annuity payment `PMT` of `calculate_total_period_payment`
(lines 6-21 of `_amortization_functions.py`):
`loan * (r * (1+r)^n) / ((1+r)^n - 1)`.  The exponent is the integral
period count `⌊n⌋` (Python computes a float power; every call in the
package passes an integral count, on which the model is exact). -/
def calculate_total_period_payment (loan_amount : ℚ) (rate : ℚ) (number_of_periods : ℚ) : ℚ :=
  loan_amount * ((rate * (1 + rate) ^ (⌊number_of_periods⌋ : ℤ)) /
    ((1 + rate) ^ (⌊number_of_periods⌋ : ℤ) - 1))

/-- The interest portion `IPMT` (lines 23-34): `balance * rate`. -/
def calculate_interest_payment (outstanding_loan_amount : ℚ) (rate : ℚ) : ℚ :=
  outstanding_loan_amount * rate

/-- The principal portion `PPMT` (lines 36-50):
`payment - interest_payment(balance, rate)`. -/
def calculate_principal_payment (total_period_payment outstanding_loan_amount rate : ℚ) : ℚ :=
  total_period_payment - calculate_interest_payment outstanding_loan_amount rate

/-- The pair `(PPMT, IPMT)` of `calculate_principal_and_interest_payment`
(lines 52-69). -/
def calculate_principal_and_interest_payment (total_period_payment outstanding_loan_amount rate : ℚ) :
    ℚ × ℚ :=
  (calculate_principal_payment total_period_payment outstanding_loan_amount rate,
   calculate_interest_payment outstanding_loan_amount rate)

/-- The effective per-period payment of `generate_amortization_table`
lines 97-104: the expected minimum `PMT` over the principal-paying
periods, raised to at least the passed total, with any additional
payment added afterwards. -/
def effective_total_payment (rate principal_amount : ℚ) (number_of_periods : ℕ)
    (total_payment additional_payment : Option ℚ) (number_of_interest_only_periods : ℚ) : ℚ :=
  let expected := calculate_total_period_payment principal_amount rate
    ((number_of_periods : ℚ) - number_of_interest_only_periods)
  let base := match total_payment with
    | none => expected
    | some t => if t < expected then expected else t
  match additional_payment with
  | none => base
  | some a => base + a

/-- One iteration of the loop of `generate_amortization_table`
(lines 118-140): returns the recorded row and the unrounded closing
balance that becomes the next opening balance (line 142).  The first
three lets are the branch of lines 120-127, `closing1` is line 129, the
next three lets are the clamp of lines 130-133, and the recorded row
rounds the closing balance as line 140 does. -/
def amortStep (rate ior pay nio : ℚ) (period : ℕ) (opening : ℚ) : Row × ℚ :=
  let interest := if 0 < ior ∧ 0 < nio ∧ (period : ℚ) ≤ nio then opening * ior
                  else (calculate_principal_and_interest_payment pay opening rate).2
  let principal1 := if 0 < ior ∧ 0 < nio ∧ (period : ℚ) ≤ nio then 0
                    else (calculate_principal_and_interest_payment pay opening rate).1
  let payment1 := if 0 < ior ∧ 0 < nio ∧ (period : ℚ) ≤ nio then interest else pay
  let closing1 := opening - principal1
  let principal := if closing1 < 0 then principal1 + closing1 else principal1
  let payment := if closing1 < 0 then principal + interest else payment1
  let closing := if closing1 < 0 then 0 else closing1
  (⟨period, opening, interest, principal, payment, round6 closing⟩, closing)

/-- The iteration of `generate_amortization_table` lines 117-144:
`fuel` counts the periods still allowed by `range(1, n+1)`, `period` is
the current 1-based period index, `opening` the running balance.  The
loop breaks as soon as the (unrounded) balance is not positive
(lines 142-144). -/
def amortLoop (rate ior pay nio : ℚ) : ℕ → ℕ → ℚ → List Row
  | 0, _, _ => []
  | fuel+1, period, opening =>
    (amortStep rate ior pay nio period opening).1 ::
      (if (amortStep rate ior pay nio period opening).2 ≤ 0 then []
       else amortLoop rate ior pay nio fuel (period+1) (amortStep rate ior pay nio period opening).2)

/-- The table generator `generate_amortization_table`
(lines 71-148 of `_amortization_functions.py`).  The validation of
lines 93-95 precedes any row generation; on success the rows of the
returned DataFrame are produced by the loop starting at period 1 with
the principal amount as opening balance. -/
def generate_amortization_table (rate principal_amount : ℚ) (number_of_periods : ℕ)
    (total_payment additional_payment : Option ℚ)
    (ior nio : ℚ) : Except AmortError (List Row) :=
  if (0 < ior ∧ nio ≤ 0) ∨ (ior ≤ 0 ∧ 0 < nio) then
    .error .inconsistentInterestOnlyConfig
  else
    .ok (amortLoop rate ior
      (effective_total_payment rate principal_amount number_of_periods
        total_payment additional_payment nio)
      nio number_of_periods 1 principal_amount)

/-- The row list of a successful run of the generator (empty if the
generator raised). -/
def generatedRows (rate principal_amount : ℚ) (number_of_periods : ℕ)
    (total_payment additional_payment : Option ℚ) (ior nio : ℚ) : List Row :=
  (generate_amortization_table rate principal_amount number_of_periods
    total_payment additional_payment ior nio).toOption.getD []

/-- Running cumulative sums, as pandas' `cumsum` produces them. -/
def cumsumAux (acc : ℚ) : List ℚ → List ℚ
  | [] => []
  | x :: xs => (acc + x) :: cumsumAux (acc + x) xs

/-- Cumulative sums of a list starting from zero. -/
def cumsum (xs : List ℚ) : List ℚ :=
  cumsumAux 0 xs

/-- The `cumulative_interest` column of line 147 of
`_amortization_functions.py`: the interest column reversed, cumulatively
summed, and reversed again. -/
def cumulative_interest (rows : List Row) : List ℚ :=
  (cumsum ((rows.map Row.interest).reverse)).reverse

/-- The sum of the interest column, as `Amortization.total_interest`
(lines 161-165 of `_amortization.py`) computes it from the DataFrame. -/
def schedule_total_interest (rows : List Row) : ℚ :=
  (rows.map Row.interest).sum

/-- The principal portion the loop computes for a recorded row before the
clamp of lines 130-133: zero inside an active interest-only window
(lines 120-123), otherwise `PPMT` of the effective payment against the
row's opening balance (line 126). -/
def computed_principal (rate pay ior nio : ℚ) (r : Row) : ℚ :=
  if 0 < ior ∧ 0 < nio ∧ (r.period : ℚ) ≤ nio then 0
  else calculate_principal_payment pay r.opening_balance rate

/-- The frequency-name resolver `repayment_frequency_name`
(lines 17-36 of `_amortization.py`): `int(x)` is compared with the
constants 52, 26.0 and 12 of `_constants.py`; an unknown count raises
`ValueError` (spec name: `InvalidFrequency`). -/
def repayment_frequency_name (repayment_frequency : ℚ) : Except AmortError String :=
  if pyInt repayment_frequency = 52 then .ok "weekly"
  else if pyInt repayment_frequency = 26 then .ok "fortnightly"
  else if pyInt repayment_frequency = 12 then .ok "monthly"
  else .error .invalidFrequency

/-- The name-to-count resolver `repayment_frequency_periods`
(lines 38-57 of `_amortization.py`), case-insensitive on the name. -/
def repayment_frequency_periods (repayment_frequency : String) : Except AmortError ℚ :=
  if pyLower repayment_frequency = "weekly" then .ok 52
  else if pyLower repayment_frequency = "fortnightly" then .ok 26
  else if pyLower repayment_frequency = "monthly" then .ok 12
  else .error .invalidFrequency

/-- The method `Amortization._get_repayment_frequency_periods`
(lines 324-339 of `_amortization.py`): `None` keeps the current value, a
string resolves by name, and a numeric specifier is validated through
`repayment_frequency_name` and then returned as `int(x)`. -/
def get_repayment_frequency_periods (current : ℚ) :
    Option FreqSpec → Except AmortError ℚ
  | none => .ok current
  | some (.name s) => repayment_frequency_periods s
  | some (.count q) => (repayment_frequency_name q).map (fun _ => (pyInt q : ℚ))

/-- The state of an `Amortization` entity (`_amortization.py`
lines 59-96): the six loan parameters and the generated schedule
DataFrame `_df` (modelled by its row list). -/
structure Amortization where
  repayment_frequency_periods : ℚ
  nominal_annual_interest_rate : ℚ
  principal_amount : ℚ
  years : ℚ
  interest_only_nominal_annual_interest_rate : ℚ
  interest_only_years : ℚ
  df : List Row
deriving DecidableEq, Inhabited

/-- The method `Amortization.calculate_total_number_of_periods`
(lines 379-389 of `_amortization.py`): `years` times the resolved
repayment frequency, with no rounding or truncation. -/
def Amortization.calculate_total_number_of_periods (a : Amortization)
    (years : ℚ) (repayment_frequency : Option FreqSpec) : Except AmortError ℚ :=
  (get_repayment_frequency_periods a.repayment_frequency_periods repayment_frequency).map
    (fun p => years * p)

/-- The getter `Amortization.n_periods` (lines 99-106). -/
def Amortization.n_periods (a : Amortization) : ℚ :=
  (a.calculate_total_number_of_periods a.years none).toOption.getD 0

/-- The getter `Amortization.n_interest_only_periods` (lines 243-246). -/
def Amortization.n_interest_only_periods (a : Amortization) : ℚ :=
  (a.calculate_total_number_of_periods a.interest_only_years none).toOption.getD 0

/-- The period count handed to `range(1, n+1)` in the generator.  Python
requires an integral value there (a fractional count raises `TypeError`
before any row is produced); the model truncates, and is exact on every
integral count, the only inputs on which the source runs the loop. -/
def toPeriodCount (q : ℚ) : ℕ :=
  ⌊q⌋.toNat

/-- The method `Amortization._generate_amortization_schedule`
(lines 354-376): call the generator with the per-period rates and the
derived period counts, and replace `_df` on success.  A raised error
propagates and leaves `_df` untouched. -/
def Amortization.regenerate (a : Amortization) : Except AmortError Amortization :=
  (generate_amortization_table
      (a.nominal_annual_interest_rate / a.repayment_frequency_periods)
      a.principal_amount
      (toPeriodCount a.n_periods)
      none none
      (a.interest_only_nominal_annual_interest_rate / a.repayment_frequency_periods)
      a.n_interest_only_periods).map
    (fun rows => { a with df := rows })

/-- The mutator `Amortization.set_interest_only` with `inplace=True`
(lines 306-321 of `_amortization.py`): the two parameter fields are
assigned first, then the schedule is regenerated.  The result pairs the
entity state after the call with the error raised, if any: when
regeneration raises, the exception propagates while `self` keeps the
newly assigned parameters and the old `_df`. -/
def Amortization.set_interest_only (a : Amortization) (rate years : ℚ) :
    Amortization × Option AmortError :=
  let a1 := { a with interest_only_nominal_annual_interest_rate := rate,
                     interest_only_years := years }
  match a1.regenerate with
  | .ok a2 => (a2, none)
  | .error e => (a1, some e)

/-- The constructor `Amortization.__init__` (lines 70-96 of
`_amortization.py`): store the parameters (`None` interest-only values
become 0.0), then either resolve and set the passed repayment frequency
(which regenerates) or regenerate with the class default of 12 monthly
periods.  A raised error propagates out of construction. -/
def Amortization.construct (nominal_annual_interest_rate principal_amount years : ℚ)
    (repayment_frequency : Option FreqSpec)
    (interest_only_rate interest_only_years : Option ℚ) : Except AmortError Amortization :=
  let a : Amortization :=
    { repayment_frequency_periods := 12,
      nominal_annual_interest_rate := nominal_annual_interest_rate,
      principal_amount := principal_amount,
      years := years,
      interest_only_nominal_annual_interest_rate := interest_only_rate.getD 0,
      interest_only_years := interest_only_years.getD 0,
      df := [] }
  match repayment_frequency with
  | none => a.regenerate
  | some fs =>
      (get_repayment_frequency_periods a.repayment_frequency_periods (some fs)).bind
        (fun p => Amortization.regenerate { a with repayment_frequency_periods := p })

/-- The interest the loop computes for a period before the clamp
(lines 120-126), as a function of the loop state. -/
def pre_interest (rate ior nio : ℚ) (period : ℕ) (opening : ℚ) : ℚ :=
  if 0 < ior ∧ 0 < nio ∧ (period : ℚ) ≤ nio then opening * ior
  else calculate_interest_payment opening rate

/-- The principal the loop computes for a period before the clamp
(lines 120-126), as a function of the loop state. -/
def pre_principal (rate ior pay nio : ℚ) (period : ℕ) (opening : ℚ) : ℚ :=
  if 0 < ior ∧ 0 < nio ∧ (period : ℚ) ≤ nio then 0
  else calculate_principal_payment pay opening rate

/-- A concrete entity state used by witnesses: a monthly 30-year loan
whose current schedule holds one (arbitrary) row. -/
def sampleAmortization : Amortization :=
  { repayment_frequency_periods := 12,
    nominal_annual_interest_rate := 4/100,
    principal_amount := 1000,
    years := 30,
    interest_only_nominal_annual_interest_rate := 0,
    interest_only_years := 0,
    df := [⟨1, 1000, 10, 20, 30, 980⟩] }

lemma round6_zero : round6 0 = 0 := by
  unfold round6 roundHalfEven
  norm_num

lemma round6_nonneg (q : ℚ) (h : 0 ≤ q) : 0 ≤ round6 q := by
  unfold round6 roundHalfEven
  have h0 : (0:ℤ) ≤ ⌊q * 1000000⌋ := Int.floor_nonneg.mpr (by positivity)
  split_ifs with h1 h2 h3
  · exact div_nonneg (by exact_mod_cast h0) (by norm_num)
  · exact div_nonneg (by exact_mod_cast (by omega : (0:ℤ) ≤ ⌊q * 1000000⌋ + 1)) (by norm_num)
  · exact div_nonneg (by exact_mod_cast h0) (by norm_num)
  · exact div_nonneg (by exact_mod_cast (by omega : (0:ℤ) ≤ ⌊q * 1000000⌋ + 1)) (by norm_num)

/-- One loop iteration, written by the two cases of the clamp of
lines 130-133. -/
lemma amortStep_eq (rate ior pay nio : ℚ) (period : ℕ) (opening : ℚ) :
    amortStep rate ior pay nio period opening =
      if opening - pre_principal rate ior pay nio period opening < 0 then
        (⟨period, opening, pre_interest rate ior nio period opening,
          opening, opening + pre_interest rate ior nio period opening, 0⟩, 0)
      else
        (⟨period, opening, pre_interest rate ior nio period opening,
          pre_principal rate ior pay nio period opening,
          (if 0 < ior ∧ 0 < nio ∧ (period : ℚ) ≤ nio then
            pre_interest rate ior nio period opening else pay),
          round6 (opening - pre_principal rate ior pay nio period opening)⟩,
         opening - pre_principal rate ior pay nio period opening) := by
  simp only [amortStep, pre_principal, pre_interest, calculate_principal_and_interest_payment,
    calculate_principal_payment, calculate_interest_payment]
  split_ifs with h1 h2 <;>
    simp_all [Prod.ext_iff, Row.mk.injEq, round6_zero]

lemma amortLoop_zero (rate ior pay nio : ℚ) (period : ℕ) (opening : ℚ) :
    amortLoop rate ior pay nio 0 period opening = [] := rfl

lemma amortLoop_succ (rate ior pay nio : ℚ) (fuel period : ℕ) (opening : ℚ) :
    amortLoop rate ior pay nio (fuel+1) period opening =
      (amortStep rate ior pay nio period opening).1 ::
        (if (amortStep rate ior pay nio period opening).2 ≤ 0 then []
         else amortLoop rate ior pay nio fuel (period+1)
           (amortStep rate ior pay nio period opening).2) := rfl

/-- Every row the loop produces carries a period index at least the
starting index: period indices only grow along the schedule. -/
lemma amortLoop_period_ge (rate ior pay nio : ℚ) :
    ∀ (fuel period : ℕ) (opening : ℚ),
      ∀ r ∈ amortLoop rate ior pay nio fuel period opening, period ≤ r.period := by
  intro fuel
  induction fuel with
  | zero =>
    intro period opening r hr
    simp [amortLoop_zero] at hr
  | succ n ih =>
    intro period opening r hr
    rw [amortLoop_succ] at hr
    rcases List.mem_cons.mp hr with h | h
    · subst h
      by_cases hc : opening - pre_principal rate ior pay nio period opening < 0 <;>
        simp [amortStep_eq, hc]
    · by_cases ht : (amortStep rate ior pay nio period opening).2 ≤ 0
      · simp [ht] at h
      · rw [if_neg ht] at h
        exact le_trans (Nat.le_succ period) (ih (period+1) _ r h)

/-- Every recorded closing balance the loop produces is nonnegative:
the clamp of lines 130-132 forbids negative balances and rounding
preserves the sign. -/
lemma amortLoop_closing_nonneg (rate ior pay nio : ℚ) :
    ∀ (fuel period : ℕ) (opening : ℚ),
      ∀ r ∈ amortLoop rate ior pay nio fuel period opening, 0 ≤ r.closing_balance := by
  intro fuel
  induction fuel with
  | zero =>
    intro period opening r hr
    simp [amortLoop_zero] at hr
  | succ n ih =>
    intro period opening r hr
    rw [amortLoop_succ] at hr
    rcases List.mem_cons.mp hr with h | h
    · subst h
      by_cases hc : opening - pre_principal rate ior pay nio period opening < 0
      · simp [amortStep_eq, hc]
      · simp only [amortStep_eq, if_neg hc]
        exact round6_nonneg _ (by linarith [not_lt.mp hc])
    · by_cases ht : (amortStep rate ior pay nio period opening).2 ≤ 0
      · simp [ht] at h
      · rw [if_neg ht] at h
        exact ih (period+1) _ r h

/-- A nonempty loop output opens with the starting period and balance. -/
lemma amortLoop_head_fields (rate ior pay nio : ℚ) (fuel period : ℕ) (opening : ℚ)
    (h : 0 < fuel) :
    ((amortLoop rate ior pay nio fuel period opening).getD 0 default).period = period ∧
    ((amortLoop rate ior pay nio fuel period opening).getD 0 default).opening_balance = opening := by
  cases fuel with
  | zero => omega
  | succ n =>
    rw [amortLoop_succ]
    by_cases hc : opening - pre_principal rate ior pay nio period opening < 0 <;>
      simp [amortStep_eq, hc]

/-- A row whose pre-clamp principal overshoots the opening balance is
clamped exactly as lines 130-133 prescribe, and it closes the schedule:
the loop breaks right after it. -/
lemma amortLoop_clamp (rate ior pay nio : ℚ) :
    ∀ (fuel period : ℕ) (opening : ℚ) (i : ℕ) (r : Row),
      i < (amortLoop rate ior pay nio fuel period opening).length →
      (amortLoop rate ior pay nio fuel period opening).getD i default = r →
      r.opening_balance - pre_principal rate ior pay nio r.period r.opening_balance < 0 →
      r.principal = r.opening_balance ∧ r.closing_balance = 0 ∧
      r.period_payment = r.principal + r.interest ∧
      i = (amortLoop rate ior pay nio fuel period opening).length - 1 := by
  intro fuel
  induction fuel with
  | zero =>
    intro period opening i r hi _ _
    simp [amortLoop_zero] at hi
  | succ n ih =>
    intro period opening i r hi hr hneg
    by_cases hc : opening - pre_principal rate ior pay nio period opening < 0
    · rw [amortLoop_succ, amortStep_eq, if_pos hc] at hi hr ⊢
      simp only [List.length_cons] at hi ⊢
      norm_num at hi ⊢
      cases i with
      | zero =>
        simp at hr
        subst hr
        refine ⟨rfl, rfl, rfl, rfl⟩
      | succ j => omega
    · rw [amortLoop_succ, amortStep_eq, if_neg hc] at hi hr ⊢
      cases i with
      | zero =>
        simp at hr
        subst hr
        exact absurd hneg hc
      | succ j =>
        by_cases ht : opening - pre_principal rate ior pay nio period opening ≤ 0
        · simp [ht] at hi
        · rw [if_neg ht] at hi hr ⊢
          simp only [List.length_cons, Nat.succ_lt_succ_iff] at hi
          simp only [List.getD_cons_succ] at hr
          obtain ⟨h1, h2, h3, h4⟩ := ih (period+1) _ j r hi hr hneg
          refine ⟨h1, h2, h3, ?_⟩
          simp only [List.length_cons]
          omega

/-- Consecutive recorded rows chain through the unrounded closing
balance: the next opening balance is the previous opening balance minus
the recorded principal (line 142), and the recorded closing balance is
that same value rounded to 6 places (line 140). -/
lemma amortLoop_chain (rate ior pay nio : ℚ) :
    ∀ (fuel period : ℕ) (opening : ℚ) (i : ℕ) (r r' : Row),
      i + 1 < (amortLoop rate ior pay nio fuel period opening).length →
      (amortLoop rate ior pay nio fuel period opening).getD i default = r →
      (amortLoop rate ior pay nio fuel period opening).getD (i+1) default = r' →
      r'.opening_balance = r.opening_balance - r.principal ∧
      r.closing_balance = round6 (r.opening_balance - r.principal) := by
  intro fuel
  induction fuel with
  | zero =>
    intro period opening i r r' hi _ _
    simp [amortLoop_zero] at hi
  | succ n ih =>
    intro period opening i r r' hi hr hr'
    by_cases hc : opening - pre_principal rate ior pay nio period opening < 0
    · rw [amortLoop_succ, amortStep_eq, if_pos hc] at hi
      simp at hi
    · rw [amortLoop_succ, amortStep_eq, if_neg hc] at hi hr hr'
      by_cases ht : opening - pre_principal rate ior pay nio period opening ≤ 0
      · simp [ht] at hi
      · rw [if_neg ht] at hi hr hr'
        cases i with
        | zero =>
          simp only [List.getD_cons_zero] at hr
          simp only [List.getD_cons_succ] at hr'
          subst hr
          simp only [List.length_cons, Nat.succ_lt_succ_iff] at hi
          have hh := amortLoop_head_fields rate ior pay nio n (period+1)
            (opening - pre_principal rate ior pay nio period opening)
            (by cases n with | zero => simp [amortLoop_zero] at hi | succ m => omega)
          rw [hr'] at hh
          exact ⟨hh.2, rfl⟩
        | succ j =>
          simp only [List.getD_cons_succ] at hr hr'
          simp only [List.length_cons, Nat.succ_lt_succ_iff] at hi
          exact ih (period+1) _ j r r' hi hr hr'

/-- Rows inside an active interest-only window: as long as the period
index is within the window, interest is the opening balance times the
interest-only rate, no principal is paid, the payment is the interest
alone, and the opening balance still equals the amount the loop started
with (lines 120-123). -/
lemma amortLoop_io_window (rate ior pay nio : ℚ) (hior : 0 < ior) (hnio : 0 < nio) :
    ∀ (fuel period : ℕ) (P : ℚ), 0 ≤ P →
      ∀ r ∈ amortLoop rate ior pay nio fuel period P,
        (r.period : ℚ) ≤ nio →
        r.interest = r.opening_balance * ior ∧ r.principal = 0 ∧
        r.period_payment = r.interest ∧ r.opening_balance = P := by
  intro fuel
  induction fuel with
  | zero =>
    intro period P hP r hr _
    simp [amortLoop_zero] at hr
  | succ n ih =>
    intro period P hP r hr hper
    by_cases hio : (period : ℚ) ≤ nio
    · have hioC : 0 < ior ∧ 0 < nio ∧ (period : ℚ) ≤ nio := ⟨hior, hnio, hio⟩
      have hpre : pre_principal rate ior pay nio period P = 0 := by
        simp [pre_principal, hioC]
      have hc : ¬ (P - pre_principal rate ior pay nio period P < 0) := by
        rw [hpre]; linarith
      rw [amortLoop_succ, amortStep_eq, if_neg hc] at hr
      rcases List.mem_cons.mp hr with h | h
      · subst h
        simp [pre_interest, pre_principal, hioC]
      · rw [hpre, sub_zero] at h
        by_cases ht : P ≤ 0
        · simp [ht] at h
        · rw [if_neg ht] at h
          exact ih (period+1) P hP r h hper
    · have hpge := amortLoop_period_ge rate ior pay nio (n+1) period P r hr
      have : (period : ℚ) ≤ (r.period : ℚ) := by exact_mod_cast hpge
      exact absurd (le_trans this hper) hio

/-- A successful run of the generator yields exactly the loop output. -/
lemma generate_ok_rows {rate P : ℚ} {n : ℕ} {tp ap : Option ℚ} {ior nio : ℚ}
    {rows : List Row}
    (h : generate_amortization_table rate P n tp ap ior nio = .ok rows) :
    rows = amortLoop rate ior (effective_total_payment rate P n tp ap nio) nio n 1 P := by
  unfold generate_amortization_table at h
  by_cases hv : (0 < ior ∧ nio ≤ 0) ∨ (ior ≤ 0 ∧ 0 < nio)
  · rw [if_pos hv] at h
    exact absurd h (by simp)
  · rw [if_neg hv] at h
    exact (Except.ok.inj h).symm

/-- The pre-clamp principal of a recorded row, read off the row itself. -/
lemma computed_principal_eq (rate pay ior nio : ℚ) (r : Row) :
    computed_principal rate pay ior nio r =
      pre_principal rate ior pay nio r.period r.opening_balance := rfl

/-- Concrete run used by several witnesses: an additional payment of 100
overshoots a 2-period loan in its first period, triggering the clamp. -/
lemma gen_overshoot_eval :
    generate_amortization_table (1/10) 100 2 none (some 100) 0 0 =
      .ok [⟨1, 100, 10, 100, 110, 0⟩] := by
  have hpay : effective_total_payment (1/10) 100 2 none (some 100) 0 = 3310/21 := by
    unfold effective_total_payment calculate_total_period_payment
    norm_num
  unfold generate_amortization_table
  rw [if_neg (by norm_num), hpay]
  simp only [amortLoop, amortStep, calculate_principal_and_interest_payment,
    calculate_principal_payment, calculate_interest_payment]
  norm_num [round6, roundHalfEven]

/-- Concrete run used by several witnesses and counterexamples: a
2-period loan at rate 1/3 per period, whose first closing balance has
more than 6 decimal places. -/
lemma gen_tworow_eval :
    generate_amortization_table (1/3) 100 2 none none 0 0 =
      .ok [⟨1, 100, 100/3, 300/7, 1600/21, 57142857/1000000⟩,
           ⟨2, 400/7, 400/21, 400/7, 1600/21, 0⟩] := by
  have hpay : effective_total_payment (1/3) 100 2 none none 0 = 1600/21 := by
    unfold effective_total_payment calculate_total_period_payment
    norm_num
  have hfl : ⌊(400/7 : ℚ) * 1000000⌋ = 57142857 := by norm_num
  unfold generate_amortization_table
  rw [if_neg (by norm_num), hpay]
  simp only [amortLoop, amortStep, calculate_principal_and_interest_payment,
    calculate_principal_payment, calculate_interest_payment]
  norm_num [round6, roundHalfEven, hfl]

/-- C1: in every generated schedule, a period whose computed principal
portion would drive the closing balance negative is clamped: the
principal is reduced by exactly the negative excess, the recorded
closing balance is exactly 0, the period payment is recorded as
principal plus interest, and the row is the last of the schedule. -/
theorem generate_clamps_overshoot_row (rate P : ℚ) (n : ℕ) (tp ap : Option ℚ)
    (ior nio : ℚ) (rows : List Row)
    (hgen : generate_amortization_table rate P n tp ap ior nio = .ok rows)
    (i : ℕ) (r : Row) (hi : i < rows.length) (hr : rows.getD i default = r)
    (hneg : r.opening_balance -
      computed_principal rate (effective_total_payment rate P n tp ap nio) ior nio r < 0) :
    r.principal =
      computed_principal rate (effective_total_payment rate P n tp ap nio) ior nio r +
        (r.opening_balance -
          computed_principal rate (effective_total_payment rate P n tp ap nio) ior nio r) ∧
    r.closing_balance = 0 ∧
    r.period_payment = r.principal + r.interest ∧
    i = rows.length - 1 := by
  have hrows := generate_ok_rows hgen
  subst hrows
  rw [computed_principal_eq] at hneg
  obtain ⟨h1, h2, h3, h4⟩ := amortLoop_clamp rate ior
    (effective_total_payment rate P n tp ap nio) nio n 1 P i r hi hr hneg
  refine ⟨?_, h2, h3, h4⟩
  rw [computed_principal_eq, h1]
  ring

/-- C1 witness: the clamp fires on the concrete overshoot run. -/
theorem generate_clamps_overshoot_row_witness :
    generate_amortization_table (1/10) 100 2 none (some 100) 0 0 =
      .ok [⟨1, 100, 10, 100, 110, 0⟩] ∧
    (⟨1, 100, 10, 100, 110, 0⟩ : Row).opening_balance -
      computed_principal (1/10) (effective_total_payment (1/10) 100 2 none (some 100) 0) 0 0
        ⟨1, 100, 10, 100, 110, 0⟩ < 0 ∧
    (⟨1, 100, 10, 100, 110, 0⟩ : Row).closing_balance = 0 ∧
    (0 : ℕ) = [(⟨1, 100, 10, 100, 110, 0⟩ : Row)].length - 1 := by
  have hpay : effective_total_payment (1/10) 100 2 none (some 100) 0 = 3310/21 := by
    unfold effective_total_payment calculate_total_period_payment
    norm_num
  have hneg : (⟨1, 100, 10, 100, 110, 0⟩ : Row).opening_balance -
      computed_principal (1/10) (effective_total_payment (1/10) 100 2 none (some 100) 0) 0 0
        ⟨1, 100, 10, 100, 110, 0⟩ < 0 := by
    unfold computed_principal calculate_principal_payment calculate_interest_payment
    rw [hpay]
    norm_num
  obtain ⟨_, h2, _, h4⟩ := generate_clamps_overshoot_row (1/10) 100 2 none (some 100) 0 0
    [⟨1, 100, 10, 100, 110, 0⟩] gen_overshoot_eval 0 ⟨1, 100, 10, 100, 110, 0⟩
    (by norm_num) rfl hneg
  exact ⟨gen_overshoot_eval, hneg, h2, h4⟩

/-- C2 (amended): consecutive rows chain through the unrounded closing
balance.  The opening balance of row i+1 equals opening minus principal
of row i; the recorded closing balance of row i is that same quantity
rounded to 6 decimal places, so the recorded values agree exactly when
rounding leaves the unrounded balance unchanged. -/
theorem schedule_balances_chain (rate P : ℚ) (n : ℕ) (tp ap : Option ℚ)
    (ior nio : ℚ) (rows : List Row)
    (hgen : generate_amortization_table rate P n tp ap ior nio = .ok rows)
    (i : ℕ) (r r' : Row) (hi : i + 1 < rows.length)
    (hr : rows.getD i default = r) (hr' : rows.getD (i+1) default = r') :
    r'.opening_balance = r.opening_balance - r.principal ∧
    r.closing_balance = round6 (r.opening_balance - r.principal) := by
  have hrows := generate_ok_rows hgen
  subst hrows
  exact amortLoop_chain rate ior (effective_total_payment rate P n tp ap nio) nio
    n 1 P i r r' hi hr hr'

/-- C2 is false as stated: in the concrete 2-period run the recorded
opening balance of row 2 is the unrounded closing balance 400/7 of
row 1, not the recorded (rounded) closing balance 57.142857. -/
theorem recorded_closing_differs_from_next_opening :
    ((generatedRows (1/3) 100 2 none none 0 0).getD 1 default).opening_balance ≠
      ((generatedRows (1/3) 100 2 none none 0 0).getD 0 default).closing_balance := by
  have h : generatedRows (1/3) 100 2 none none 0 0 =
      [⟨1, 100, 100/3, 300/7, 1600/21, 57142857/1000000⟩,
       ⟨2, 400/7, 400/21, 400/7, 1600/21, 0⟩] := by
    unfold generatedRows
    rw [gen_tworow_eval]
    rfl
  rw [h]
  norm_num

/-- C2 witness: the amended chaining relation on the concrete run. -/
theorem schedule_balances_chain_witness :
    generate_amortization_table (1/3) 100 2 none none 0 0 =
      .ok [⟨1, 100, 100/3, 300/7, 1600/21, 57142857/1000000⟩,
           ⟨2, 400/7, 400/21, 400/7, 1600/21, 0⟩] ∧
    ((⟨2, 400/7, 400/21, 400/7, 1600/21, 0⟩ : Row).opening_balance =
        (⟨1, 100, 100/3, 300/7, 1600/21, 57142857/1000000⟩ : Row).opening_balance -
          (⟨1, 100, 100/3, 300/7, 1600/21, 57142857/1000000⟩ : Row).principal ∧
      (⟨1, 100, 100/3, 300/7, 1600/21, 57142857/1000000⟩ : Row).closing_balance =
        round6 ((⟨1, 100, 100/3, 300/7, 1600/21, 57142857/1000000⟩ : Row).opening_balance -
          (⟨1, 100, 100/3, 300/7, 1600/21, 57142857/1000000⟩ : Row).principal)) := by
  refine ⟨gen_tworow_eval, ?_⟩
  exact schedule_balances_chain (1/3) 100 2 none none 0 0
    [⟨1, 100, 100/3, 300/7, 1600/21, 57142857/1000000⟩,
     ⟨2, 400/7, 400/21, 400/7, 1600/21, 0⟩] gen_tworow_eval 0
    ⟨1, 100, 100/3, 300/7, 1600/21, 57142857/1000000⟩
    ⟨2, 400/7, 400/21, 400/7, 1600/21, 0⟩ (by norm_num) rfl rfl

/-- C3: every recorded closing balance of a generated schedule is
nonnegative. -/
theorem recorded_closing_balance_nonneg (rate P : ℚ) (n : ℕ) (tp ap : Option ℚ)
    (ior nio : ℚ) (rows : List Row)
    (hgen : generate_amortization_table rate P n tp ap ior nio = .ok rows) :
    ∀ r ∈ rows, 0 ≤ r.closing_balance := by
  have hrows := generate_ok_rows hgen
  subst hrows
  exact amortLoop_closing_nonneg rate ior (effective_total_payment rate P n tp ap nio) nio n 1 P

/-- C3 witness: nonnegativity of a concrete recorded closing balance. -/
theorem recorded_closing_balance_nonneg_witness :
    generate_amortization_table (1/3) 100 2 none none 0 0 =
      .ok [⟨1, 100, 100/3, 300/7, 1600/21, 57142857/1000000⟩,
           ⟨2, 400/7, 400/21, 400/7, 1600/21, 0⟩] ∧
    0 ≤ (⟨1, 100, 100/3, 300/7, 1600/21, 57142857/1000000⟩ : Row).closing_balance := by
  refine ⟨gen_tworow_eval, ?_⟩
  exact recorded_closing_balance_nonneg (1/3) 100 2 none none 0 0
    [⟨1, 100, 100/3, 300/7, 1600/21, 57142857/1000000⟩,
     ⟨2, 400/7, 400/21, 400/7, 1600/21, 0⟩] gen_tworow_eval
    ⟨1, 100, 100/3, 300/7, 1600/21, 57142857/1000000⟩ (by simp)

/-- C4: the generator fails with the inconsistent interest-only
configuration error exactly when one of the interest-only rate and the
interest-only period count is positive and the other is not; the error
is raised by the validation of lines 93-95, before any row of the
schedule is produced (the error result carries no rows). -/
theorem generate_fails_iff_inconsistent_interest_only (rate P : ℚ) (n : ℕ)
    (tp ap : Option ℚ) (ior nio : ℚ) :
    generate_amortization_table rate P n tp ap ior nio =
        .error .inconsistentInterestOnlyConfig ↔ Xor' (0 < ior) (0 < nio) := by
  unfold generate_amortization_table
  by_cases hv : (0 < ior ∧ nio ≤ 0) ∨ (ior ≤ 0 ∧ 0 < nio)
  · rw [if_pos hv]
    constructor
    · intro _
      rcases hv with ⟨h1, h2⟩ | ⟨h1, h2⟩
      · exact Or.inl ⟨h1, not_lt.mpr h2⟩
      · exact Or.inr ⟨h2, not_lt.mpr h1⟩
    · intro _
      rfl
  · rw [if_neg hv]
    constructor
    · intro h
      exact absurd h (by simp)
    · intro hx
      exfalso
      rcases hx with ⟨h1, h2⟩ | ⟨h1, h2⟩
      · exact hv (Or.inl ⟨h1, not_lt.mp h2⟩)
      · exact hv (Or.inr ⟨not_lt.mp h2, h1⟩)

/-- C6: when interest-only is active, every row whose period index lies
in the interest-only window charges interest on the opening balance at
the interest-only rate, pays no principal, pays exactly the interest,
and still opens at the original principal amount. -/
theorem generate_interest_only_window (rate P : ℚ) (n : ℕ) (tp ap : Option ℚ)
    (ior nio : ℚ) (rows : List Row)
    (hior : 0 < ior) (hnio : 0 < nio) (hP : 0 ≤ P)
    (hgen : generate_amortization_table rate P n tp ap ior nio = .ok rows) :
    ∀ r ∈ rows, (r.period : ℚ) ≤ nio →
      r.interest = r.opening_balance * ior ∧ r.principal = 0 ∧
      r.period_payment = r.interest ∧ r.opening_balance = P := by
  have hrows := generate_ok_rows hgen
  subst hrows
  exact amortLoop_io_window rate ior (effective_total_payment rate P n tp ap nio) nio
    hior hnio n 1 P hP

/-- Concrete interest-only run used by witnesses: one interest-only
period followed by one amortizing period. -/
lemma gen_io_eval :
    generate_amortization_table (1/10) 100 2 none none (1/100) 1 =
      .ok [⟨1, 100, 1, 0, 1, 100⟩, ⟨2, 100, 10, 100, 110, 0⟩] := by
  have hpay : effective_total_payment (1/10) 100 2 none none 1 = 110 := by
    unfold effective_total_payment calculate_total_period_payment
    norm_num
  unfold generate_amortization_table
  rw [if_neg (by norm_num), hpay]
  simp only [amortLoop, amortStep, calculate_principal_and_interest_payment,
    calculate_principal_payment, calculate_interest_payment]
  norm_num [round6, roundHalfEven]

/-- C6 witness: the first row of the concrete interest-only run. -/
theorem generate_interest_only_window_witness :
    generate_amortization_table (1/10) 100 2 none none (1/100) 1 =
      .ok [⟨1, 100, 1, 0, 1, 100⟩, ⟨2, 100, 10, 100, 110, 0⟩] ∧
    ((⟨1, 100, 1, 0, 1, 100⟩ : Row).interest =
        (⟨1, 100, 1, 0, 1, 100⟩ : Row).opening_balance * (1/100) ∧
      (⟨1, 100, 1, 0, 1, 100⟩ : Row).principal = 0 ∧
      (⟨1, 100, 1, 0, 1, 100⟩ : Row).period_payment = (⟨1, 100, 1, 0, 1, 100⟩ : Row).interest ∧
      (⟨1, 100, 1, 0, 1, 100⟩ : Row).opening_balance = 100) := by
  refine ⟨gen_io_eval, ?_⟩
  exact generate_interest_only_window (1/10) 100 2 none none (1/100) 1
    [⟨1, 100, 1, 0, 1, 100⟩, ⟨2, 100, 10, 100, 110, 0⟩]
    (by norm_num) (by norm_num) (by norm_num) gen_io_eval
    ⟨1, 100, 1, 0, 1, 100⟩ (by simp) (by norm_num)

/-- Appending an element to the list being cumulatively summed appends
the grand total. -/
lemma cumsumAux_append (x : ℚ) :
    ∀ (ys : List ℚ) (acc : ℚ),
      cumsumAux acc (ys ++ [x]) = cumsumAux acc ys ++ [acc + ys.sum + x] := by
  intro ys
  induction ys with
  | nil =>
    intro acc
    simp [cumsumAux]
  | cons y ys ih =>
    intro acc
    simp only [List.cons_append, cumsumAux, List.sum_cons, List.append_eq]
    rw [ih]
    have h : acc + y + ys.sum + x = acc + (y + ys.sum) + x := by ring
    rw [h]

/-- The reversed cumulative sum of a reversed list is the suffix-sum
table: entry i is the sum of the elements from index i on. -/
lemma cumsum_reverse_getD :
    ∀ (xs : List ℚ) (i : ℕ),
      ((cumsum xs.reverse).reverse).getD i 0 = (xs.drop i).sum := by
  intro xs
  induction xs with
  | nil =>
    intro i
    simp [cumsum, cumsumAux]
  | cons x xs ih =>
    intro i
    have h : (x :: xs).reverse = xs.reverse ++ [x] := by simp
    rw [h]
    unfold cumsum
    rw [cumsumAux_append x xs.reverse 0, List.reverse_append]
    cases i with
    | zero =>
      simp [List.sum_reverse]
      ring
    | succ j =>
      simpa using ih j

/-- C7: the cumulative interest column of line 147 (interest reversed,
cumulatively summed, reversed back) is the suffix sum of the interest
column, and its first entry is the total interest of the schedule. -/
theorem cumulative_interest_is_suffix_sum (rate P : ℚ) (n : ℕ) (tp ap : Option ℚ)
    (ior nio : ℚ) (rows : List Row)
    (hgen : generate_amortization_table rate P n tp ap ior nio = .ok rows) :
    (∀ i, (cumulative_interest rows).getD i 0 = ((rows.map Row.interest).drop i).sum) ∧
    (cumulative_interest rows).getD 0 0 = schedule_total_interest rows := by
  constructor
  · intro i
    exact cumsum_reverse_getD (rows.map Row.interest) i
  · have h := cumsum_reverse_getD (rows.map Row.interest) 0
    simpa [schedule_total_interest] using h

/-- C7 witness: the suffix-sum identity on the concrete 2-period run. -/
theorem cumulative_interest_is_suffix_sum_witness :
    generate_amortization_table (1/3) 100 2 none none 0 0 =
      .ok [⟨1, 100, 100/3, 300/7, 1600/21, 57142857/1000000⟩,
           ⟨2, 400/7, 400/21, 400/7, 1600/21, 0⟩] ∧
    (cumulative_interest
        [⟨1, 100, 100/3, 300/7, 1600/21, 57142857/1000000⟩,
         ⟨2, 400/7, 400/21, 400/7, 1600/21, 0⟩]).getD 0 0 =
      schedule_total_interest
        [⟨1, 100, 100/3, 300/7, 1600/21, 57142857/1000000⟩,
         ⟨2, 400/7, 400/21, 400/7, 1600/21, 0⟩] := by
  refine ⟨gen_tworow_eval, ?_⟩
  exact (cumulative_interest_is_suffix_sum (1/3) 100 2 none none 0 0
    [⟨1, 100, 100/3, 300/7, 1600/21, 57142857/1000000⟩,
     ⟨2, 400/7, 400/21, 400/7, 1600/21, 0⟩] gen_tworow_eval).2

/-- The interest-only period count of an entity is the raw product of
interest-only years and frequency. -/
lemma n_interest_only_periods_eq (a : Amortization) :
    a.n_interest_only_periods = a.interest_only_years * a.repayment_frequency_periods := by
  unfold Amortization.n_interest_only_periods Amortization.calculate_total_number_of_periods
    get_repayment_frequency_periods
  simp [Except.map, Except.toOption]

/-- Regeneration raises the inconsistent interest-only configuration
error whenever exactly one of the entity's interest-only rate and
interest-only years is positive (the generator validation of lines
93-95 applied to the derived per-period arguments). -/
lemma regenerate_error_of_xor (a : Amortization)
    (hf : 0 < a.repayment_frequency_periods)
    (h : Xor' (0 < a.interest_only_nominal_annual_interest_rate)
      (0 < a.interest_only_years)) :
    a.regenerate = .error .inconsistentInterestOnlyConfig := by
  have hnio := n_interest_only_periods_eq a
  have hcond : (0 < a.interest_only_nominal_annual_interest_rate /
        a.repayment_frequency_periods ∧ a.n_interest_only_periods ≤ 0) ∨
      (a.interest_only_nominal_annual_interest_rate /
        a.repayment_frequency_periods ≤ 0 ∧ 0 < a.n_interest_only_periods) := by
    rcases h with ⟨h1, h2⟩ | ⟨h1, h2⟩
    · left
      refine ⟨div_pos h1 hf, ?_⟩
      rw [hnio]
      have hy : a.interest_only_years ≤ 0 := not_lt.mp h2
      nlinarith
    · right
      refine ⟨div_nonpos_iff.mpr (Or.inr ⟨not_lt.mp h2, hf.le⟩), ?_⟩
      rw [hnio]
      exact mul_pos h1 hf
  unfold Amortization.regenerate generate_amortization_table
  rw [if_pos hcond]
  rfl

/-- C5 (amended): an entity whose loan parameters set exactly one of the
interest-only rate and the interest-only years to a positive value is
NOT treated as inactive silently: construction propagates the
inconsistent interest-only configuration error raised by the generator,
so no entity (and no schedule) is produced. -/
theorem construct_fails_on_inconsistent_interest_only
    (rate P yrs ior ioy : ℚ) (h : Xor' (0 < ior) (0 < ioy)) :
    Amortization.construct rate P yrs none (some ior) (some ioy) =
      .error .inconsistentInterestOnlyConfig := by
  unfold Amortization.construct
  exact regenerate_error_of_xor _ (by norm_num) (by simpa using h)

/-- C5 is false as stated: constructing an entity with only the
interest-only rate set (rate 0.045, years unset) raises the
inconsistent-configuration error instead of silently succeeding with an
interest-only-free schedule. -/
theorem construct_with_only_rate_set_errors :
    Amortization.construct (4/100) 500000 30 none (some (45/1000)) none =
      .error .inconsistentInterestOnlyConfig := by
  unfold Amortization.construct
  exact regenerate_error_of_xor _ (by norm_num)
    (Or.inl ⟨by norm_num, by norm_num⟩)

/-- C5 witness: the amended claim at a concrete inconsistent input. -/
theorem construct_fails_on_inconsistent_interest_only_witness :
    Xor' (0 < (45/1000 : ℚ)) (0 < (0 : ℚ)) ∧
    Amortization.construct (4/100) 500000 30 none (some (45/1000)) (some 0) =
      .error .inconsistentInterestOnlyConfig := by
  have hx : Xor' (0 < (45/1000 : ℚ)) (0 < (0 : ℚ)) :=
    Or.inl ⟨by norm_num, by norm_num⟩
  exact ⟨hx, construct_fails_on_inconsistent_interest_only (4/100) 500000 30
    (45/1000) 0 hx⟩

/-- C8 (amended): the derived period counts are the raw products of
years (respectively interest-only years) and the periods per year, with
no rounding or truncation; fractional years yield a fractional period
count. -/
theorem period_counts_are_raw_products (a : Amortization) :
    a.n_periods = a.years * a.repayment_frequency_periods ∧
    a.n_interest_only_periods = a.interest_only_years * a.repayment_frequency_periods := by
  constructor
  · unfold Amortization.n_periods Amortization.calculate_total_number_of_periods
      get_repayment_frequency_periods
    simp [Except.map, Except.toOption]
  · exact n_interest_only_periods_eq a

/-- C8 is false as stated: with 0.7 years at monthly frequency the
derived period count is 8.4, not the truncated integer 8. -/
theorem fractional_years_period_count_not_truncated :
    (Amortization.n_periods
      { repayment_frequency_periods := 12,
        nominal_annual_interest_rate := 1/20,
        principal_amount := 1000,
        years := 7/10,
        interest_only_nominal_annual_interest_rate := 0,
        interest_only_years := 0,
        df := [] }) = 42/5 ∧ (42/5 : ℚ) ≠ 8 := by
  constructor
  · unfold Amortization.n_periods Amortization.calculate_total_number_of_periods
      get_repayment_frequency_periods
    simp [Except.map, Except.toOption]
    norm_num
  · norm_num

/-- C9 (amended): the frequency resolver fails with the invalid
frequency error exactly when the specifier is neither a name whose
lowercase form is weekly, fortnightly or monthly, nor a numeric whose
integer truncation is one of the known period counts 52, 26, 12 (so a
numeric such as 12.9 resolves, to 12).  The specifiers daily and 7 do
fail. -/
theorem frequency_resolution_error_iff (cur q : ℚ) (s : String) :
    (get_repayment_frequency_periods cur (some (.count q)) =
        .error .invalidFrequency ↔
      (pyInt q ≠ 52 ∧ pyInt q ≠ 26 ∧ pyInt q ≠ 12)) ∧
    (get_repayment_frequency_periods cur (some (.name s)) =
        .error .invalidFrequency ↔
      (pyLower s ≠ "weekly" ∧ pyLower s ≠ "fortnightly" ∧ pyLower s ≠ "monthly")) ∧
    get_repayment_frequency_periods cur (some (.name "daily")) =
      .error .invalidFrequency ∧
    get_repayment_frequency_periods cur (some (.count 7)) =
      .error .invalidFrequency := by
  have hname : ∀ t : String,
      get_repayment_frequency_periods cur (some (.name t)) =
          .error .invalidFrequency ↔
        (pyLower t ≠ "weekly" ∧ pyLower t ≠ "fortnightly" ∧ pyLower t ≠ "monthly") := by
    intro t
    simp only [get_repayment_frequency_periods]
    unfold repayment_frequency_periods
    split_ifs with h1 h2 h3 <;> simp_all
  have hcount : ∀ p : ℚ,
      get_repayment_frequency_periods cur (some (.count p)) =
          .error .invalidFrequency ↔
        (pyInt p ≠ 52 ∧ pyInt p ≠ 26 ∧ pyInt p ≠ 12) := by
    intro p
    simp only [get_repayment_frequency_periods]
    unfold repayment_frequency_name
    split_ifs with h1 h2 h3 <;> simp_all [Except.map]
  refine ⟨hcount q, hname s, ?_, ?_⟩
  · exact (hname "daily").mpr ⟨by decide, by decide, by decide⟩
  · refine (hcount 7).mpr ?_
    have h7 : pyInt (7 : ℚ) = 7 := by
      unfold pyInt
      rw [if_pos (by norm_num)]
      norm_num
    rw [h7]
    norm_num

/-- C9 is false as stated: the numeric specifier 12.9 is neither a known
name nor one of the known period counts 52, 26, 12, yet it resolves
(to 12, via integer truncation) instead of raising. -/
theorem noninteger_count_resolves :
    get_repayment_frequency_periods 12 (some (.count (129/10))) = .ok 12 ∧
    (129/10 : ℚ) ≠ 52 ∧ (129/10 : ℚ) ≠ 26 ∧ (129/10 : ℚ) ≠ 12 := by
  have h : pyInt (129/10 : ℚ) = 12 := by
    unfold pyInt
    rw [if_pos (by norm_num)]
    norm_num
  constructor
  · simp only [get_repayment_frequency_periods]
    unfold repayment_frequency_name
    rw [h]
    norm_num [Except.map]
  · norm_num

/-- C10: calling set_interest_only in place with an inconsistent
configuration (exactly one of rate and years positive) raises, and the
entity is left with the new parameter values while its schedule is
still the one generated from the previous parameters: the fields are
assigned before validation runs. -/
theorem set_interest_only_mutates_before_validation (a : Amortization) (r y : ℚ)
    (hf : 0 < a.repayment_frequency_periods)
    (h : Xor' (0 < r) (0 < y)) :
    (a.set_interest_only r y).2 = some .inconsistentInterestOnlyConfig ∧
    (a.set_interest_only r y).1.interest_only_nominal_annual_interest_rate = r ∧
    (a.set_interest_only r y).1.interest_only_years = y ∧
    (a.set_interest_only r y).1.df = a.df := by
  have herr : ({ a with
      interest_only_nominal_annual_interest_rate := r
      interest_only_years := y } : Amortization).regenerate =
      .error .inconsistentInterestOnlyConfig :=
    regenerate_error_of_xor _ hf h
  simp only [Amortization.set_interest_only]
  rw [herr]
  exact ⟨rfl, rfl, rfl, rfl⟩

/-- C10 witness: the mutate-then-raise behaviour on a concrete entity. -/
theorem set_interest_only_mutates_before_validation_witness :
    0 < sampleAmortization.repayment_frequency_periods ∧
    Xor' (0 < (45/1000 : ℚ)) (0 < (0 : ℚ)) ∧
    ((sampleAmortization.set_interest_only (45/1000) 0).2 =
        some .inconsistentInterestOnlyConfig ∧
      (sampleAmortization.set_interest_only (45/1000) 0).1.interest_only_nominal_annual_interest_rate
        = 45/1000 ∧
      (sampleAmortization.set_interest_only (45/1000) 0).1.interest_only_years = 0 ∧
      (sampleAmortization.set_interest_only (45/1000) 0).1.df = sampleAmortization.df) := by
  have hf : 0 < sampleAmortization.repayment_frequency_periods := by
    unfold sampleAmortization
    norm_num
  have hx : Xor' (0 < (45/1000 : ℚ)) (0 < (0 : ℚ)) :=
    Or.inl ⟨by norm_num, by norm_num⟩
  exact ⟨hf, hx,
    set_interest_only_mutates_before_validation sampleAmortization (45/1000) 0 hf hx⟩
